import Mathlib

/-!
Shallow embedding of the core of `pptx-in-html-out` (`src/index.js`,
class `PPTXInHTMLOut`) and proofs about the claims of its specification.

External collaborators (the zip reader JSZip, the XML tokenizer xml2js,
the image prober sharp, the OCR engine tesseract.js) are modelled as
abstract functions supplied through a context structure; the repository's
own logic (validation, slide enumeration and ordering, relationship
lookup, image resolution, per-shape HTML generation, document assembly,
worker lifecycle) is translated line by line from the source.

Strings stand in both for text and for raw byte buffers.
-/

namespace PPTX

/-- JS truthiness of a string value: `''` is falsy, every other string truthy. -/
def truthy (s : String) : Bool := s ≠ ""

/-- Lexicographic `≤` on char lists by code point; this is what JavaScript's
default `Array.prototype.sort()` comparison does on (ASCII) strings. -/
def lexLe : List Char → List Char → Bool
  | [], _ => true
  | _ :: _, [] => false
  | a :: as, b :: bs => if a = b then lexLe as bs else decide (a < b)

/-- String comparison used by the default JS sort. -/
def strLe (s t : String) : Bool := lexLe s.toList t.toList

/-- Stable insertion of a string into a sorted list. -/
def insertSorted (x : String) : List String → List String
  | [] => [x]
  | y :: ys => if strLe x y then x :: y :: ys else y :: insertSorted x ys

/-- Stable sort of strings; models `Array.prototype.sort()` with the default
(lexicographic string) comparator, as used in `parseSlides` (index.js:135). -/
def sortStrings : List String → List String
  | [] => []
  | x :: xs => insertSorted x (sortStrings xs)

/-- Is `c` an ASCII decimal digit (`[0-9]` in the source regexes)? -/
def isDigitCh (c : Char) : Bool := 48 ≤ c.toNat && c.toNat ≤ 57

/-- Is `c` an ASCII lowercase letter (`[a-z]` in the source regex)? -/
def isLowerAlpha (c : Char) : Bool := 97 ≤ c.toNat && c.toNat ≤ 122

/-- After at least one `[a-z]` has been consumed, keep consuming `[a-z]`
until a `:`; `some rest` is the text after the colon, `none` means the
regex `^[a-z]+:` fails to match. -/
def stripGo : List Char → Option (List Char)
  | [] => none
  | c :: rest => if c = ':' then some rest
      else if isLowerAlpha c then stripGo rest else none

/-- `name.replace(/^[a-z]+:/, '')` (index.js:97-98): drop a leading run of
one or more lowercase letters followed by `:`; otherwise leave the name
unchanged. -/
def stripL (cs : List Char) : List Char :=
  match cs with
  | [] => []
  | c :: rest =>
      if isLowerAlpha c then
        match stripGo rest with
        | some r => r
        | none => c :: rest
      else c :: rest

/-- Does the pattern `pat` occur at the head of the text? -/
def beginsWith : List Char → List Char → Bool
  | [], _ => true
  | _ :: _, [] => false
  | p :: ps, t :: ts => p = t && beginsWith ps ts

/-- After the literal `ppt/slides/slide`, the regex tail `[0-9]+\.xml`:
one or more digits followed by the literal `.xml`. -/
def slideTailMatch (cs : List Char) : Bool :=
  decide (cs.takeWhile isDigitCh ≠ []) &&
  beginsWith (".xml".toList) (cs.dropWhile isDigitCh)

/-- Does `/ppt\/slides\/slide[0-9]+\.xml/` match starting at this position? -/
def slideMatchAt (cs : List Char) : Bool :=
  beginsWith ("ppt/slides/slide".toList) cs &&
  slideTailMatch (cs.drop ("ppt/slides/slide".toList).length)

/-- Unanchored JS regex search: does `/ppt\/slides\/slide[0-9]+\.xml/`
match anywhere in the name (index.js:71, `f.match(...)`)? -/
def slideMatchAnywhere : List Char → Bool
  | [] => false
  | c :: ts => slideMatchAt (c :: ts) || slideMatchAnywhere ts

/-- `validatePPTX` (index.js:56-77): checks the two required entries in
order, then requires at least one slide part; throws (modelled as
`Except.error` with the exact message) naming the first missing
requirement, otherwise returns the matching slide names. -/
def validatePPTX (files : List String) : Except String (List String) :=
  if !(files.contains "ppt/presentation.xml") then
    .error "Invalid PPTX file: missing ppt/presentation.xml"
  else if !(files.contains "_rels/.rels") then
    .error "Invalid PPTX file: missing _rels/.rels"
  else
    let slideFiles := files.filter (fun f => slideMatchAnywhere f.toList)
    if slideFiles.isEmpty then .error "Invalid PPTX file: no slides found"
    else .ok slideFiles

/-- Try to match the regex `/slide(\d+)\.xml/` at this position and return
the captured digit group. -/
def slideNumAt (cs : List Char) : Option (List Char) :=
  if beginsWith ("slide".toList) cs then
    let rest := cs.drop ("slide".toList).length
    let ds := rest.takeWhile isDigitCh
    if decide (ds ≠ []) && beginsWith (".xml".toList) (rest.dropWhile isDigitCh)
    then some ds else none
  else none

/-- First (leftmost) match of `/slide(\d+)\.xml/` in the name
(index.js:296, `slideFile.match(/slide(\d+)\.xml/)`). -/
def slideNumSearch : List Char → Option (List Char)
  | [] => none
  | c :: ts =>
      match slideNumAt (c :: ts) with
      | some ds => some ds
      | none => slideNumSearch ts

/-- The digit group captured from a slide file name, or `none` when the
regex does not match (in the source, `match(...)` is `null` and the index
access throws, which the surrounding `catch` turns into a `null` result). -/
def extractSlideNum (s : String) : Option String :=
  (slideNumSearch s.toList).map String.mk

/-! ### The package and its collaborators

A `Package` models a successfully opened zip container. Entry contents
that the source hands to external collaborators are carried in already
parsed form:
* `relsOf` gives, for a relationship entry name, the list of
  `(Id, Target)` attribute pairs of its Relationship elements as parsed by
  `parseStringPromise` — `none` when the entry is missing or fails to
  parse (`getSlideRels` returns `null` in both cases). Absent attributes
  behave exactly like empty strings under the truthiness guard in
  index.js:314 and are modelled as `""`.
* `media` gives raw bytes for a media entry name (`zip.file(...)`), or
  `none` when the entry is absent.
* `slideXml` gives the parsed content of a slide entry, or `none` when
  `parseStringPromise` throws on it (that slide is skipped, index.js:153).
-/

/-- One parsed run `a:r`: its text is `run['a:t']?.[0]`. -/
structure XRun where
  t : Option String
deriving Repr, DecidableEq

/-- One parsed paragraph `a:p`: its runs are `paragraph['a:r']`, which may
be absent. -/
structure XPara where
  r : Option (List XRun)
deriving Repr, DecidableEq

/-- One parsed shape `p:sp`: `shape['p:txBody']?.[0]`. When the body is
present, its paragraph list is `txBody['a:p'] || []`, so an absent
paragraph key is already folded into the empty list. -/
structure XShape where
  txBody : Option (List XPara)
deriving Repr, DecidableEq

/-- One parsed picture `p:pic`: the whole optional chain
`pic['p:blipFill']?.[0]?.['a:blip']?.[0]?.$?.['r:embed']` collapses into
the presence or absence of the embed relationship id. -/
structure XPic where
  embed : Option String
deriving Repr, DecidableEq

/-- The parsed content of one slide part as `convertSlideToHTML` navigates
it: no `p:sld` root, a root without a `p:spTree`, or a shape tree with its
optional `p:sp` and `p:pic` arrays. -/
inductive ParsedSlide where
  | noSld
  | noSpTree
  | tree (sps : Option (List XShape)) (pics : Option (List XPic))
deriving Repr, DecidableEq

/-- A slide as stored by `parseSlides` (index.js:149-152). -/
structure Slide where
  file : String
  content : ParsedSlide
deriving Repr, DecidableEq

/-- The loaded container plus the parsing collaborators (see above). -/
structure Package where
  files : List String
  relsOf : String → Option (List (String × String))
  media : String → Option String
  slideXml : String → Option ParsedSlide

/-- The OCR collaborator: whether `createWorker()` succeeds, and the
result of `worker.recognize` (`none` when the call throws). -/
structure Ocr where
  createOk : Bool
  recognize : String → Option String

/-- The entry filter of `parseSlides` (index.js:133-134):
`name.startsWith('ppt/slides/slide') && name.endsWith('.xml')` (a suffix
check is a head check on the reversed text). -/
def slideFileFilter (name : String) : Bool :=
  beginsWith ("ppt/slides/slide".toList) name.toList &&
  beginsWith (".xml".toList.reverse) name.toList.reverse

/-- `parseSlides` (index.js:132-166): filter the slide entries, sort them
with the default (lexicographic) comparator, parse each, and skip any
slide whose parse fails. -/
def parseSlides (pkg : Package) : List Slide :=
  let slideFiles := sortStrings (pkg.files.filter slideFileFilter)
  slideFiles.filterMap fun f => (pkg.slideXml f).map fun c => ⟨f, c⟩

/-- The body of `getSlideRels` (index.js:311-320): keep only entries whose
`Id` and `Target` are both truthy. -/
def buildRels (entries : List (String × String)) : List (String × String) :=
  entries.filter fun e => truthy e.1 && truthy e.2

/-- Lookup in the `rels` object built by `getSlideRels`: property access
on a JS object built by repeated assignment, so the last entry with a
given id wins, and ids excluded by the truthiness filter are absent. -/
def relLookup (rels : List (String × String)) (rId : String) : Option String :=
  ((rels.filter fun e => e.1 = rId).getLast?).map (·.2)

/-- `getSlideRels` (index.js:293-327): extract the slide number, read the
sibling relationship entry, and build the id-to-target table; any failure
(non-matching name, missing entry, parse error) yields `null`. -/
def getSlideRels (pkg : Package) (slideFile : String) : Option (List (String × String)) :=
  match extractSlideNum slideFile with
  | none => none
  | some num =>
      match pkg.relsOf ("ppt/slides/_rels/slide" ++ num ++ ".xml.rels") with
      | none => none
      | some entries => some (buildRels entries)

/-- `target.split('/')`: split on every slash, keeping empty pieces. -/
def splitSlashAux : List Char → List Char → List (List Char)
  | [], acc => [acc.reverse]
  | c :: rest, acc =>
      if c = '/' then acc.reverse :: splitSlashAux rest []
      else splitSlashAux rest (c :: acc)

/-- `imagePath.split('/').pop()` (index.js:344). -/
def lastPathComponent (target : String) : String :=
  String.mk ((splitSlashAux target.toList []).getLastD [])

/-- `getImageData` (index.js:329-359): resolve the embed id through the
slide relationship table, then read the media entry named by the trailing
file name of the target; every failure returns `null`, none throws. -/
def getImageData (pkg : Package) (slideFile rId : String) : Option String :=
  match getSlideRels pkg slideFile with
  | none => none
  | some rels =>
      match relLookup rels rId with
      | none => none
      | some imagePath =>
          if !(truthy imagePath) then none
          else pkg.media ("ppt/media/" ++ lastPathComponent imagePath)

/-- `processImage` (index.js:361-375), value level: create a worker,
recognize, and return the text; any throw is caught and `null` returned. -/
def processImage (ocr : Ocr) (imageBuffer : String) : Option String :=
  if ocr.createOk then ocr.recognize imageBuffer else none

/-- Lifecycle events of one OCR worker, tagged with the id of the worker
the invocation created. -/
inductive OcrEvent where
  | create (wid : Nat)
  | createFail
  | recognize (wid : Nat)
  | terminate (wid : Nat)
deriving Repr, DecidableEq

/-- `processImage` with its worker lifecycle made observable. The source
keeps `worker` local, creates it inside `try`, and the `finally` block
terminates it exactly when it was created: when `createWorker()` itself
throws, `worker` is still `null` and nothing is terminated; otherwise the
recognize call is attempted and the worker is terminated afterwards on
both the success and the throw path. -/
def processImageTrace (ocr : Ocr) (wid : Nat) (imageBuffer : String) :
    Option String × List OcrEvent :=
  if ocr.createOk then
    (ocr.recognize imageBuffer, [.create wid, .recognize wid, .terminate wid])
  else
    (none, [.createFail])

/-- The picture fragment template (index.js:230-232), whitespace exact. -/
def pictureFragment (text : String) : String :=
  "<div class=\"picture\">\n                <p class=\"ocr-text\">" ++ text
    ++ "</p>\n              </div>"

/-- The picture branch of the `convertSlideToHTML` loop (index.js:220-236):
a falsy embed id, a failed image resolution, a failed recognition, or
falsy recognized text all contribute nothing; only truthy recognized text
emits the fragment. -/
def picHtml (pkg : Package) (ocr : Ocr) (slideFile : String) (pic : XPic) : String :=
  match pic.embed with
  | none => ""
  | some rId =>
      if !(truthy rId) then ""
      else
        match getImageData pkg slideFile rId with
        | none => ""
        | some imageData =>
            match processImage ocr imageData with
            | none => ""
            | some text => if truthy text then pictureFragment text else ""

/-- One span per run (index.js:205-206): `run['a:t']?.[0] || ''`. -/
def runSpan (r : XRun) : String := "<span>" ++ r.t.getD "" ++ "</span>"

/-- One paragraph container per paragraph (index.js:199-211): the runs are
appended in order inside the `<p>` wrapper; an absent run array emits an
empty paragraph. -/
def paraHtml (p : XPara) : String :=
  "<p>" ++
    (match p.r with
      | none => ""
      | some runs => runs.foldl (fun h r => h ++ runSpan r) "") ++ "</p>"

/-- The shape branch of the loop (index.js:192-214): a shape without a
text body contributes nothing; otherwise the paragraphs are appended in
order inside the shape wrapper. -/
def shapeHtml (shape : XShape) : String :=
  match shape.txBody with
  | none => ""
  | some paras =>
      "<div class=\"shape\">" ++ paras.foldl (fun h p => h ++ paraHtml p) ""
        ++ "</div>"

/-- `convertSlideToHTML` (index.js:168-241): missing root or missing shape
tree yield the empty string after a logged warning; otherwise the shapes
and then the pictures are appended, each in document order, inside the
slide container. The function is total: every failure path in the source
is caught and converted to an empty contribution. -/
def convertSlideToHTML (pkg : Package) (ocr : Ocr) (slide : Slide) : String :=
  match slide.content with
  | .noSld => ""
  | .noSpTree => ""
  | .tree sps pics =>
      "<div class=\"slide\"><div class=\"slide-content\">" ++
        (match sps with
          | none => ""
          | some shapeList => shapeList.foldl (fun h s => h ++ shapeHtml s) "") ++
        (match pics with
          | none => ""
          | some picList =>
              picList.foldl (fun h p => h ++ picHtml pkg ocr slide.file p) "") ++
      "</div></div>"

/-- `generateStyles` (index.js:473-505): the fixed stylesheet block,
whitespace exact (braces written with escapes). -/
def generateStyles : String :=
  "\n      <style>\n        .slide \x7b\n          position: relative;\n          width: 100%;\n          height: 0;\n          padding-bottom: 56.25%;\n          margin-bottom: 20px;\n          background: white;\n        \x7d\n        .slide-content \x7b\n          position: absolute;\n          top: 0;\n          left: 0;\n          width: 100%;\n          height: 100%;\n        \x7d\n        .shape \x7b\n          position: absolute;\n          box-sizing: border-box;\n        \x7d\n        .text \x7b\n          word-wrap: break-word;\n          overflow-wrap: break-word;\n        \x7d\n        .image \x7b\n          max-width: 100%;\n          height: auto;\n        \x7d\n      </style>\n    "

/-- The document skeleton up to the stylesheet interpolation point
(index.js:461-467). -/
def docHead : String :=
  "<!DOCTYPE html>\n<html>\n<head>\n  <meta charset=\"UTF-8\">\n  <meta name=\"viewport\" content=\"width=device-width, initial-scale=1.0\">\n  <title>PowerPoint Presentation</title>\n  "

/-- `generateHTML` (index.js:454-471): concatenate the per-slide fragments
in list order and wrap them in the fixed skeleton; the stylesheet block is
interpolated unconditionally. -/
def generateHTML (pkg : Package) (ocr : Ocr) (slides : List Slide) : String :=
  docHead ++ generateStyles ++ "\n</head>\n<body>"
    ++ slides.foldl (fun acc s => acc ++ convertSlideToHTML pkg ocr s) ""
    ++ "</body>\n</html>"

/-- `toHTML` (index.js:442-452): initialize, parse the slides, generate
the document. It performs no container validation (`validatePPTX` is
reachable only through `load()`), and, once the package is open, every
inner failure is absorbed, so it is a total function of the package and
the collaborators. -/
def toHTML (pkg : Package) (ocr : Ocr) : String :=
  generateHTML pkg ocr (parseSlides pkg)

/-- The options object documented in the README for `toHTML(options)`. -/
structure Options where
  includeStyles : Bool := true
deriving Repr, DecidableEq

/-- Calling `toHTML(options)` with an argument: the method (index.js:442)
declares no parameter, so the argument is ignored entirely. -/
def toHTMLWithOptions (pkg : Package) (ocr : Ocr) (_opts : Options) : String :=
  toHTML pkg ocr

/-! ### The generic parse operation of `parseXml` (index.js:92-103)

`parseXml` configures the XML collaborator with `normalizeTags: true`
(which prepends a lowercasing step to the tag name processors) and with
`tagNameProcessors` and `attrNameProcessors` both equal to
`(name) => name.replace(/^[a-z]+:/, '')`. The key under which an element
or attribute lands in the attributed tree is therefore the image of its
qualified name under the maps below. -/

/-- ASCII lowercasing of one character, as `String.prototype.toLowerCase`
acts on ASCII input. -/
def lowerCh (c : Char) : Char :=
  if 65 ≤ c.toNat && c.toNat ≤ 90 then Char.ofNat (c.toNat + 32) else c

/-- ASCII lowercasing of a name. -/
def lowerList (cs : List Char) : List Char := cs.map lowerCh

/-- The tree key of a tag name: lowercased by `normalizeTags`, then
stripped by the tag name processor. -/
def parseTagKey (name : String) : String :=
  String.mk (stripL (lowerList name.toList))

/-- The tree key of an attribute name: stripped by the attribute name
processor; attribute names are not lowercased. -/
def parseAttrKey (name : String) : String :=
  String.mk (stripL name.toList)

/-- The local part of a qualified markup name: everything after the first
colon, or the whole name when it has none. Used only to state the
prefix-insensitivity claim. -/
def localPart (cs : List Char) : List Char :=
  match cs.dropWhile (fun c => !(c = ':')) with
  | [] => cs
  | _ :: rest => rest

/-- String form of `localPart`. -/
def localName (s : String) : String := String.mk (localPart s.toList)

/-! ### Concrete fixtures used by the theorems below -/

/-- A package with no entries at all. -/
def emptyPkg : Package := ⟨[], fun _ => none, fun _ => none, fun _ => none⟩

/-- An OCR collaborator whose worker creation always fails. -/
def ocrNone : Ocr := ⟨false, fun _ => none⟩

/-- An OCR collaborator whose worker is created but whose recognize call
always throws. -/
def ocrFail : Ocr := ⟨true, fun _ => none⟩

/-- An OCR collaborator that always succeeds with empty recognized text. -/
def ocrEmpty : Ocr := ⟨true, fun _ => some ""⟩

/-- A slide part whose only content is one shape with one run of text. -/
def textSlide (s : String) : ParsedSlide :=
  .tree (some [⟨some [⟨some [⟨some s⟩]⟩]⟩]) none

/-- A valid package with slide parts 1, 2 and 10, carrying the texts
"one", "two" and "ten". -/
def pkgTen : Package where
  files := ["_rels/.rels", "ppt/presentation.xml", "ppt/slides/slide2.xml",
    "ppt/slides/slide10.xml", "ppt/slides/slide1.xml"]
  relsOf := fun _ => none
  media := fun _ => none
  slideXml := fun f =>
    if f = "ppt/slides/slide1.xml" then some (textSlide "one")
    else if f = "ppt/slides/slide2.xml" then some (textSlide "two")
    else if f = "ppt/slides/slide10.xml" then some (textSlide "ten")
    else none

/-- A valid package with one slide holding one picture whose embed id
resolves through the slide relationship table to an existing media entry. -/
def pkgMedia : Package where
  files := ["_rels/.rels", "ppt/presentation.xml", "ppt/slides/slide1.xml",
    "ppt/slides/_rels/slide1.xml.rels", "ppt/media/image1.png"]
  relsOf := fun n =>
    if n = "ppt/slides/_rels/slide1.xml.rels"
    then some [("rId2", "../media/image1.png")] else none
  media := fun n => if n = "ppt/media/image1.png" then some "IMGBYTES" else none
  slideXml := fun f =>
    if f = "ppt/slides/slide1.xml"
    then some (.tree none (some [⟨some "rId2"⟩])) else none

/-- The text shape of the order example: paragraphs
`[["Hello"], ["World"]]`. -/
def helloWorldSlide : Slide :=
  ⟨"s", .tree (some [⟨some [⟨some [⟨some "Hello"⟩]⟩, ⟨some [⟨some "World"⟩]⟩]⟩]) none⟩

/-- The opening of a rendered one-run text slide, up to its text. -/
def slidePre : String :=
  "<div class=\"slide\"><div class=\"slide-content\"><div class=\"shape\"><p><span>"

/-- The closing of a rendered one-run text slide, after its text. -/
def slidePost : String := "</span></p></div></div></div>"

/-- The tail of the stylesheet block after its opening `<style>` tag. -/
def styleTail : String :=
  "\n        .slide \x7b\n          position: relative;\n          width: 100%;\n          height: 0;\n          padding-bottom: 56.25%;\n          margin-bottom: 20px;\n          background: white;\n        \x7d\n        .slide-content \x7b\n          position: absolute;\n          top: 0;\n          left: 0;\n          width: 100%;\n          height: 100%;\n        \x7d\n        .shape \x7b\n          position: absolute;\n          box-sizing: border-box;\n        \x7d\n        .text \x7b\n          word-wrap: break-word;\n          overflow-wrap: break-word;\n        \x7d\n        .image \x7b\n          max-width: 100%;\n          height: auto;\n        \x7d\n      </style>\n    "

/-! ### Helper lemmas -/

/-- Concatenation of a list of strings in order. -/
def concatAll : List String → String
  | [] => ""
  | s :: rest => s ++ concatAll rest

theorem concatAll_append (xs ys : List String) :
    concatAll (xs ++ ys) = concatAll xs ++ concatAll ys := by
  induction xs with
  | nil => simp [concatAll, String.empty_append]
  | cons a as ih => simp [concatAll, ih, String.append_assoc]

/-- The accumulator loops of the renderer are ordered concatenations. -/
theorem foldl_append_eq {α : Type} (f : α → String) (xs : List α) (init : String) :
    xs.foldl (fun h a => h ++ f a) init = init ++ concatAll (xs.map f) := by
  induction xs generalizing init with
  | nil => simp [concatAll, String.append_empty]
  | cons a as ih => simp [concatAll, ih (init ++ f a), String.append_assoc]

set_option maxRecDepth 8192 in
/-- The stylesheet block decomposed around its opening tag. -/
theorem styles_decompose : generateStyles = "\n      " ++ "<style>" ++ styleTail := by
  decide

/-- A picture whose fragment is empty contributes nothing to its slide. -/
theorem slide_pic_contrib (pkg : Package) (ocr : Ocr) (f : String)
    (sps : Option (List XShape)) (pics1 pics2 : List XPic) (pic : XPic)
    (h : picHtml pkg ocr f pic = "") :
    convertSlideToHTML pkg ocr ⟨f, .tree sps (some (pics1 ++ pic :: pics2))⟩ =
      convertSlideToHTML pkg ocr ⟨f, .tree sps (some (pics1 ++ pics2))⟩ := by
  simp only [convertSlideToHTML, foldl_append_eq, List.map_append, List.map_cons,
    concatAll_append, concatAll, h, String.empty_append]

/-- The two required entries checked by `validatePPTX` (index.js:60-63). -/
def isRequiredEntry (f : String) : Bool :=
  f == "ppt/presentation.xml" || f == "_rels/.rels"

/-- A slide entry name is never one of the required entries. -/
theorem slideFileFilter_not_required (f : String) (hf : slideFileFilter f = true) :
    isRequiredEntry f = false := by
  cases h1 : f == "ppt/presentation.xml" with
  | true =>
      have : f = "ppt/presentation.xml" := by simpa using h1
      rw [this] at hf
      exact absurd hf (by decide)
  | false =>
      cases h2 : f == "_rels/.rels" with
      | true =>
          have : f = "_rels/.rels" := by simpa using h2
          rw [this] at hf
          exact absurd hf (by decide)
      | false => simp [isRequiredEntry, h1, h2]

/-- Removing the required entries from a listing leaves the slide entries
untouched. -/
theorem filter_drop_required (fs : List String) :
    (fs.filter (fun f => !(isRequiredEntry f))).filter slideFileFilter =
      fs.filter slideFileFilter := by
  induction fs with
  | nil => rfl
  | cons a as ih =>
      cases hn : isRequiredEntry a with
      | false => simp [List.filter_cons, hn, ih]
      | true =>
          have hs : slideFileFilter a = false := by
            cases hs2 : slideFileFilter a
            · rfl
            · rw [slideFileFilter_not_required a hs2] at hn; cases hn
          simp [List.filter_cons, hn, hs, ih]

/-! ### Claim theorems -/

set_option maxRecDepth 16384 in
/-- C1: slide parts must be ordered by the numeric index embedded in the
file name, with a tenth slide after a second; the code sorts the names
lexicographically (`.sort()`, index.js:135), so on a package with slides
1, 2 and 10 the tenth slide is parsed — and hence rendered — before the
second: the document carries the slide texts in the order one, ten, two
instead of one, two, ten. The claim matches the documented intent and the
code is the defect. -/
theorem parseSlides_lexicographic_misorder :
    (parseSlides pkgTen).map Slide.file =
      ["ppt/slides/slide1.xml", "ppt/slides/slide10.xml", "ppt/slides/slide2.xml"] ∧
    (parseSlides pkgTen).map Slide.file ≠
      ["ppt/slides/slide1.xml", "ppt/slides/slide2.xml", "ppt/slides/slide10.xml"] ∧
    ∃ a b c d : String, toHTML pkgTen ocrNone =
      a ++ ("one" ++ (b ++ ("ten" ++ (c ++ ("two" ++ d))))) := by
  have hslides : parseSlides pkgTen =
      [⟨"ppt/slides/slide1.xml", textSlide "one"⟩,
       ⟨"ppt/slides/slide10.xml", textSlide "ten"⟩,
       ⟨"ppt/slides/slide2.xml", textSlide "two"⟩] := by decide
  have hone : ∀ f : String, convertSlideToHTML pkgTen ocrNone ⟨f, textSlide "one"⟩ =
      slidePre ++ ("one" ++ slidePost) := fun f => rfl
  have hten : ∀ f : String, convertSlideToHTML pkgTen ocrNone ⟨f, textSlide "ten"⟩ =
      slidePre ++ ("ten" ++ slidePost) := fun f => rfl
  have htwo : ∀ f : String, convertSlideToHTML pkgTen ocrNone ⟨f, textSlide "two"⟩ =
      slidePre ++ ("two" ++ slidePost) := fun f => rfl
  refine ⟨by rw [hslides]; rfl, by rw [hslides]; decide, ?_⟩
  refine ⟨docHead ++ generateStyles ++ "\n</head>\n<body>" ++ slidePre,
    slidePost ++ slidePre, slidePost ++ slidePre, slidePost ++ "</body>\n</html>", ?_⟩
  show generateHTML pkgTen ocrNone (parseSlides pkgTen) = _
  rw [hslides]
  unfold generateHTML
  simp only [List.foldl_cons, List.foldl_nil, String.empty_append,
    hone, hten, htwo, String.append_assoc]

set_option maxRecDepth 16384 in
/-- C2 counterexample: an empty package misses every required entry, yet
`toHTML` does not fail with an InvalidContainerError and does yield
output: it returns the complete document skeleton. The container checks
live only in `validatePPTX`, which `toHTML` (index.js:442-452) never
invokes. -/
theorem toHTML_no_validation :
    validatePPTX emptyPkg.files =
      .error "Invalid PPTX file: missing ppt/presentation.xml" ∧
    toHTML emptyPkg ocrNone =
      docHead ++ generateStyles ++ "\n</head>\n<body></body>\n</html>" := by
  exact ⟨rfl, by decide⟩

set_option maxRecDepth 16384 in
/-- C2 (amended): a package missing a required entry is rejected, with an
error naming the missing requirement, only on the `load` path through
`validatePPTX`; conversion via `toHTML` performs no container validation
at all — removing the required entries from any package leaves its output
unchanged, so on every such package `toHTML` succeeds and yields HTML
rendering whatever slide parts parse, the bare skeleton (no slide
containers) when none do. -/
theorem validatePPTX_missing_entry :
    (∀ files : List String, "ppt/presentation.xml" ∉ files →
      validatePPTX files = .error "Invalid PPTX file: missing ppt/presentation.xml") ∧
    (∀ files : List String, "ppt/presentation.xml" ∈ files →
      "_rels/.rels" ∉ files →
      validatePPTX files = .error "Invalid PPTX file: missing _rels/.rels") ∧
    (∀ files : List String, "ppt/presentation.xml" ∈ files →
      "_rels/.rels" ∈ files →
      files.filter (fun f => slideMatchAnywhere f.toList) = [] →
      validatePPTX files = .error "Invalid PPTX file: no slides found") ∧
    (∀ (pkg : Package) (ocr : Ocr),
      toHTML ⟨pkg.files.filter (fun f => !(isRequiredEntry f)),
        pkg.relsOf, pkg.media, pkg.slideXml⟩ ocr = toHTML pkg ocr) ∧
    (∀ (pkg : Package) (ocr : Ocr), pkg.files.filter slideFileFilter = [] →
      toHTML pkg ocr =
        docHead ++ generateStyles ++ "\n</head>\n<body></body>\n</html>") := by
  refine ⟨?_, ?_, ?_, ?_, ?_⟩
  · intro files h; simp [validatePPTX, h]
  · intro files h1 h2; simp [validatePPTX, h1, h2]
  · intro files h1 h2 h3
    have h4 : ∀ x ∈ files, slideMatchAnywhere x.data = false := by
      rw [List.filter_eq_nil_iff] at h3
      intro x hx
      simpa using h3 x hx
    simp [validatePPTX, h1, h2]
    exact h4
  · intro pkg ocr
    obtain ⟨files, r, m, x⟩ := pkg
    dsimp only
    have hps : parseSlides ⟨files.filter (fun f => !(isRequiredEntry f)), r, m, x⟩ =
        parseSlides ⟨files, r, m, x⟩ := by
      unfold parseSlides
      dsimp only
      rw [filter_drop_required]
    unfold toHTML
    rw [hps]
    rfl
  · intro pkg ocr h
    have hp : parseSlides pkg = [] := by
      unfold parseSlides; rw [h]; rfl
    unfold toHTML
    rw [hp]
    unfold generateHTML
    simp only [List.foldl_nil, String.append_empty, String.append_assoc]
    congr 1

/-- Witness for the amended container claim: each hypothesis-bearing part
applied at concrete inputs, and the required-entry invariance at the
three-slide package. -/
theorem validatePPTX_missing_entry_witness :
    validatePPTX [] = .error "Invalid PPTX file: missing ppt/presentation.xml" ∧
    validatePPTX ["ppt/presentation.xml"] =
      .error "Invalid PPTX file: missing _rels/.rels" ∧
    validatePPTX ["ppt/presentation.xml", "_rels/.rels"] =
      .error "Invalid PPTX file: no slides found" ∧
    toHTML ⟨pkgTen.files.filter (fun f => !(isRequiredEntry f)),
      pkgTen.relsOf, pkgTen.media, pkgTen.slideXml⟩ ocrNone = toHTML pkgTen ocrNone ∧
    toHTML emptyPkg ocrFail =
      docHead ++ generateStyles ++ "\n</head>\n<body></body>\n</html>" :=
  ⟨validatePPTX_missing_entry.1 [] (by decide),
   validatePPTX_missing_entry.2.1 ["ppt/presentation.xml"] (by decide) (by decide),
   validatePPTX_missing_entry.2.2.1 ["ppt/presentation.xml", "_rels/.rels"]
     (by decide) (by decide) (by decide),
   validatePPTX_missing_entry.2.2.2.1 pkgTen ocrNone,
   validatePPTX_missing_entry.2.2.2.2 emptyPkg ocrFail (by decide)⟩

/-- C3: the README documents `toHTML(options)` with `includeStyles`
controlling stylesheet emission, but the method (index.js:442) declares no
parameter: the options object is ignored and the stylesheet block is
emitted unconditionally, in particular with `includeStyles := false`. -/
theorem toHTML_always_emits_styles :
    (∀ (pkg : Package) (ocr : Ocr) (opts : Options),
      toHTMLWithOptions pkg ocr opts = toHTML pkg ocr) ∧
    (∀ (pkg : Package) (ocr : Ocr), ∃ a b : String,
      toHTMLWithOptions pkg ocr ⟨false⟩ = a ++ ("<style>" ++ b)) := by
  refine ⟨fun pkg ocr opts => rfl, fun pkg ocr => ?_⟩
  refine ⟨docHead ++ "\n      ",
    styleTail ++ ("\n</head>\n<body>" ++
      ((parseSlides pkg).foldl (fun acc s => acc ++ convertSlideToHTML pkg ocr s) ""
        ++ "</body>\n</html>")), ?_⟩
  simp only [toHTMLWithOptions, toHTML, generateHTML, styles_decompose,
    String.append_assoc]

/-- C4: a picture whose embed relationship id is absent from the slide
relationship table, or whose slide has no relationship file at all,
resolves to no image data and renders an empty picture fragment; the
slide renders exactly as if the picture were absent, and no error can
arise on this path — the embedding of the render path is a total
function because every failure in the source is caught. -/
theorem missing_relationship_soft (pkg : Package) (ocr : Ocr) (f rId : String)
    (habs : getSlideRels pkg f = none ∨
      ∃ rels, getSlideRels pkg f = some rels ∧ relLookup rels rId = none) :
    getImageData pkg f rId = none ∧
    picHtml pkg ocr f ⟨some rId⟩ = "" ∧
    ∀ (sps : Option (List XShape)) (pics1 pics2 : List XPic),
      convertSlideToHTML pkg ocr ⟨f, .tree sps (some (pics1 ++ ⟨some rId⟩ :: pics2))⟩ =
        convertSlideToHTML pkg ocr ⟨f, .tree sps (some (pics1 ++ pics2))⟩ := by
  have hnone : getImageData pkg f rId = none := by
    rcases habs with h | ⟨rels, h1, h2⟩
    · unfold getImageData; rw [h]
    · unfold getImageData; rw [h1]; simp [h2]
  have hpic : picHtml pkg ocr f ⟨some rId⟩ = "" := by
    simp [picHtml, hnone]
  exact ⟨hnone, hpic,
    fun sps pics1 pics2 => slide_pic_contrib pkg ocr f sps pics1 pics2 _ hpic⟩

/-- Witness for the missing-relationship claim: the empty package has no
relationship entry for slide 1, and a slide holding only that picture
renders as the bare slide container. -/
theorem missing_relationship_soft_witness :
    getImageData emptyPkg "ppt/slides/slide1.xml" "rId2" = none ∧
    picHtml emptyPkg ocrNone "ppt/slides/slide1.xml" ⟨some "rId2"⟩ = "" ∧
    convertSlideToHTML emptyPkg ocrNone
        ⟨"ppt/slides/slide1.xml", .tree none (some [⟨some "rId2"⟩])⟩ =
      convertSlideToHTML emptyPkg ocrNone ⟨"ppt/slides/slide1.xml", .tree none (some [])⟩ :=
  ⟨(missing_relationship_soft emptyPkg ocrNone "ppt/slides/slide1.xml" "rId2" (Or.inl rfl)).1,
   (missing_relationship_soft emptyPkg ocrNone "ppt/slides/slide1.xml" "rId2" (Or.inl rfl)).2.1,
   (missing_relationship_soft emptyPkg ocrNone "ppt/slides/slide1.xml" "rId2" (Or.inl rfl)).2.2 none [] []⟩

/-- C5: a picture whose embed id resolves to existing media but whose
recognition call fails is absorbed: `processImage` catches the throw and
returns null, the fragment carries no text (it is empty), and the slide
renders exactly as if the picture were absent. -/
theorem recognition_failure_soft (pkg : Package) (ocr : Ocr) (f rId buf : String)
    (hres : getImageData pkg f rId = some buf)
    (hw : ocr.createOk = true)
    (hrec : ocr.recognize buf = none)
    (htr : truthy rId = true) :
    processImage ocr buf = none ∧
    picHtml pkg ocr f ⟨some rId⟩ = "" ∧
    ∀ (sps : Option (List XShape)) (pics1 pics2 : List XPic),
      convertSlideToHTML pkg ocr ⟨f, .tree sps (some (pics1 ++ ⟨some rId⟩ :: pics2))⟩ =
        convertSlideToHTML pkg ocr ⟨f, .tree sps (some (pics1 ++ pics2))⟩ := by
  have hpi : processImage ocr buf = none := by simp [processImage, hw, hrec]
  have hpic : picHtml pkg ocr f ⟨some rId⟩ = "" := by
    simp [picHtml, htr, hres, hpi]
  exact ⟨hpi, hpic,
    fun sps pics1 pics2 => slide_pic_contrib pkg ocr f sps pics1 pics2 _ hpic⟩

/-- Witness for the failing-recognition claim: `pkgMedia` resolves the
embed id `rId2` to the media entry, and an OCR collaborator whose
recognize call throws leaves the slide equal to one with no picture. -/
theorem recognition_failure_soft_witness :
    picHtml pkgMedia ocrFail "ppt/slides/slide1.xml" ⟨some "rId2"⟩ = "" ∧
    convertSlideToHTML pkgMedia ocrFail
        ⟨"ppt/slides/slide1.xml", .tree none (some [⟨some "rId2"⟩])⟩ =
      convertSlideToHTML pkgMedia ocrFail ⟨"ppt/slides/slide1.xml", .tree none (some [])⟩ :=
  ⟨(recognition_failure_soft pkgMedia ocrFail "ppt/slides/slide1.xml" "rId2" "IMGBYTES"
      (by decide) rfl rfl (by decide)).2.1,
   (recognition_failure_soft pkgMedia ocrFail "ppt/slides/slide1.xml" "rId2" "IMGBYTES"
      (by decide) rfl rfl (by decide)).2.2 none [] []⟩

/-- C6: one paragraph container per paragraph, one span per run, in source
order: the render loops are ordered concatenations, concatenation
respects list append (so earlier paragraphs render strictly earlier), and
the shape with paragraphs [["Hello"], ["World"]] renders Hello before
World. -/
theorem text_order_preserved :
    (∀ runs : List XRun, paraHtml ⟨some runs⟩ =
      "<p>" ++ concatAll (runs.map runSpan) ++ "</p>") ∧
    (∀ paras : List XPara, shapeHtml ⟨some paras⟩ =
      "<div class=\"shape\">" ++ concatAll (paras.map paraHtml) ++ "</div>") ∧
    (∀ xs ys : List XPara,
      concatAll ((xs ++ ys).map paraHtml) =
        concatAll (xs.map paraHtml) ++ concatAll (ys.map paraHtml)) ∧
    ∃ a b c : String, convertSlideToHTML emptyPkg ocrNone helloWorldSlide =
      a ++ ("Hello" ++ (b ++ ("World" ++ c))) := by
  refine ⟨?_, ?_, ?_, ?_⟩
  · intro runs; simp [paraHtml, foldl_append_eq, String.empty_append]
  · intro paras; simp [shapeHtml, foldl_append_eq, String.empty_append]
  · intro xs ys; simp [List.map_append, concatAll_append]
  · exact ⟨slidePre, "</span></p><p><span>", slidePost, rfl⟩

/-- C7 counterexample: the strip regex `^[a-z]+:` only matches prefixes
made of lowercase letters, so two elements that differ only in their
namespace prefix need not share a key: the tags `ns1:t` and `p:t` (digit
in the prefix) and the attributes `R:embed` and `r:embed` (uppercase
prefix, and attribute names are not lowercased) have equal local names
but distinct tree keys. -/
theorem parseKey_not_insensitive :
    parseTagKey "ns1:t" = "ns1:t" ∧ parseTagKey "p:t" = "t" ∧
    ¬ parseTagKey "ns1:t" = parseTagKey "p:t" ∧
    localName "ns1:t" = localName "p:t" ∧
    parseAttrKey "R:embed" = "R:embed" ∧ parseAttrKey "r:embed" = "embed" ∧
    ¬ parseAttrKey "R:embed" = parseAttrKey "r:embed" ∧
    localName "R:embed" = localName "r:embed" := by
  decide

theorem stripGo_alpha (p loc : List Char) (hp : ∀ c ∈ p, isLowerAlpha c = true) :
    stripGo (p ++ ':' :: loc) = some loc := by
  induction p with
  | nil => rfl
  | cons d ds ih =>
      have hd := hp d (List.mem_cons_self d ds)
      have hcolon : ¬ d = ':' := by
        intro h; rw [h] at hd; exact absurd hd (by decide)
      show (if d = ':' then some (ds ++ ':' :: loc)
        else if isLowerAlpha d then stripGo (ds ++ ':' :: loc) else none) = some loc
      rw [if_neg hcolon, if_pos hd]
      exact ih (fun c hc => hp c (List.mem_cons_of_mem d hc))

theorem stripL_alpha (p loc : List Char) (hne : p ≠ [])
    (hp : ∀ c ∈ p, isLowerAlpha c = true) :
    stripL (p ++ ':' :: loc) = loc := by
  cases p with
  | nil => exact absurd rfl hne
  | cons d ds =>
      have hd := hp d (List.mem_cons_self d ds)
      simp [stripL, hd,
        stripGo_alpha ds loc (fun c hc => hp c (List.mem_cons_of_mem d hc))]

theorem lowerCh_fix (c : Char) (h : isLowerAlpha c = true) : lowerCh c = c := by
  have h1 : 97 ≤ c.toNat ∧ c.toNat ≤ 122 := by
    simpa [isLowerAlpha] using h
  have h2 : ¬ (65 ≤ c.toNat ∧ c.toNat ≤ 90) := by omega
  simp [lowerCh, h2]

theorem lowerList_fix (p : List Char) (hp : ∀ c ∈ p, isLowerAlpha c = true) :
    lowerList p = p := by
  induction p with
  | nil => rfl
  | cons d ds ih =>
      simp [lowerList, lowerCh_fix d (hp d (List.mem_cons_self d ds))]
      exact ih (fun c hc => hp c (List.mem_cons_of_mem d hc))

theorem lowerList_split (p loc : List Char) (hp : ∀ c ∈ p, isLowerAlpha c = true) :
    lowerList (p ++ ':' :: loc) = p ++ ':' :: lowerList loc := by
  have hcolon : lowerCh ':' = ':' := rfl
  simp [lowerList, List.map_append, hcolon]
  exact lowerList_fix p hp

/-- C7 (amended): the strip applies exactly to prefixes that are nonempty
runs of lowercase letters — for tag names after the lowercasing of
`normalizeTags`, and literally for attribute names. For two such prefixes
and a common local part the parse keys coincide (and equal the local
part, lowercased for tags); prefixes outside this shape, as in the
counterexample, are preserved. -/
theorem parseKey_strips_alpha (p1 p2 loc : List Char)
    (hne1 : p1 ≠ []) (hne2 : p2 ≠ [])
    (ha1 : ∀ c ∈ p1, isLowerAlpha c = true) (ha2 : ∀ c ∈ p2, isLowerAlpha c = true) :
    parseAttrKey (String.mk (p1 ++ ':' :: loc)) = String.mk loc ∧
    parseAttrKey (String.mk (p2 ++ ':' :: loc)) = String.mk loc ∧
    parseTagKey (String.mk (p1 ++ ':' :: loc)) =
      parseTagKey (String.mk (p2 ++ ':' :: loc)) ∧
    parseTagKey (String.mk (p1 ++ ':' :: loc)) = String.mk (lowerList loc) := by
  have htag : ∀ p, p ≠ [] → (∀ c ∈ p, isLowerAlpha c = true) →
      parseTagKey (String.mk (p ++ ':' :: loc)) = String.mk (lowerList loc) := by
    intro p hne hp
    show String.mk (stripL (lowerList (p ++ ':' :: loc))) = _
    rw [lowerList_split p loc hp, stripL_alpha p _ hne hp]
  refine ⟨?_, ?_, ?_, htag p1 hne1 ha1⟩
  · show String.mk (stripL (p1 ++ ':' :: loc)) = _
    rw [stripL_alpha p1 loc hne1 ha1]
  · show String.mk (stripL (p2 ++ ':' :: loc)) = _
    rw [stripL_alpha p2 loc hne2 ha2]
  · rw [htag p1 hne1 ha1, htag p2 hne2 ha2]

/-- Witness for the amended key claim: the prefixes `r` and `a` with the
local part `embed` map to the same stripped keys. -/
theorem parseKey_strips_alpha_witness :
    parseAttrKey (String.mk ('r' :: ':' :: "embed".toList)) = String.mk "embed".toList ∧
    parseTagKey (String.mk ('r' :: ':' :: "embed".toList)) =
      parseTagKey (String.mk ('a' :: ':' :: "embed".toList)) :=
  ⟨(parseKey_strips_alpha ['r'] ['a'] "embed".toList (by decide) (by decide)
      (by decide) (by decide)).1,
   (parseKey_strips_alpha ['r'] ['a'] "embed".toList (by decide) (by decide)
      (by decide) (by decide)).2.2.1⟩

/-- C8: the conversion is deterministic — the output is a function of the
package contents and the collaborator behaviours alone, so two
invocations over equal inputs and equally behaving collaborators return
identical HTML; the embedding carries no clock, randomness or hidden
state, mirroring the source pipeline. -/
theorem toHTML_deterministic (p1 p2 : Package) (o1 o2 : Ocr)
    (hf : p1.files = p2.files)
    (hr : ∀ s, p1.relsOf s = p2.relsOf s)
    (hm : ∀ s, p1.media s = p2.media s)
    (hx : ∀ s, p1.slideXml s = p2.slideXml s)
    (hc : o1.createOk = o2.createOk)
    (hg : ∀ s, o1.recognize s = o2.recognize s) :
    toHTML p1 o1 = toHTML p2 o2 := by
  obtain ⟨f1, r1, m1, x1⟩ := p1
  obtain ⟨f2, r2, m2, x2⟩ := p2
  obtain ⟨c1, g1⟩ := o1
  obtain ⟨c2, g2⟩ := o2
  dsimp only at hf hr hm hx hc hg
  subst hf
  subst hc
  have hr2 : r1 = r2 := funext hr
  subst hr2
  have hm2 : m1 = m2 := funext hm
  subst hm2
  have hx2 : x1 = x2 := funext hx
  subst hx2
  have hg2 : g1 = g2 := funext hg
  subst hg2
  rfl

/-- Witness for determinism at a concrete package. -/
theorem toHTML_deterministic_witness :
    toHTML pkgTen ocrNone = toHTML pkgTen ocrNone :=
  toHTML_deterministic pkgTen pkgTen ocrNone ocrNone rfl
    (fun _ => rfl) (fun _ => rfl) (fun _ => rfl) rfl (fun _ => rfl)

/-- C9: each recognition invocation acquires one fresh worker — only the
id supplied for this invocation appears in its trace — and releases it
unconditionally: the create and terminate counts agree on the success
path and on both failure paths (recognition throw, worker-creation
throw), the terminate event closes the trace whenever a worker was
created, and the traced result agrees with `processImage`. -/
theorem processImage_scoped_worker (ocr : Ocr) (wid : Nat) (buf : String) :
    ((processImageTrace ocr wid buf).2.count (OcrEvent.create wid) =
      (processImageTrace ocr wid buf).2.count (OcrEvent.terminate wid)) ∧
    (∀ w, OcrEvent.create w ∈ (processImageTrace ocr wid buf).2 → w = wid) ∧
    (∀ w, OcrEvent.terminate w ∈ (processImageTrace ocr wid buf).2 → w = wid) ∧
    (OcrEvent.create wid ∈ (processImageTrace ocr wid buf).2 →
      (processImageTrace ocr wid buf).2.getLast? = some (OcrEvent.terminate wid)) ∧
    (processImageTrace ocr wid buf).1 = processImage ocr buf := by
  unfold processImageTrace processImage
  cases hc : ocr.createOk with
  | false => simp
  | true => simp [List.count_cons]

/-- C10: a picture whose recognition succeeds with empty text emits no
fragment at all — the fragment is guarded by the truthiness of the text —
so the output is identical to that of a slide whose resolution failed,
and the slide renders exactly as if the picture were absent. -/
theorem empty_text_no_fragment (pkg : Package) (ocr : Ocr) (f rId buf : String)
    (hres : getImageData pkg f rId = some buf)
    (hw : ocr.createOk = true)
    (hrec : ocr.recognize buf = some "")
    (htr : truthy rId = true) :
    picHtml pkg ocr f ⟨some rId⟩ = "" ∧
    (∀ pkg2 : Package, getSlideRels pkg2 f = none →
      picHtml pkg2 ocr f ⟨some rId⟩ = picHtml pkg ocr f ⟨some rId⟩) ∧
    ∀ (sps : Option (List XShape)) (pics1 pics2 : List XPic),
      convertSlideToHTML pkg ocr ⟨f, .tree sps (some (pics1 ++ ⟨some rId⟩ :: pics2))⟩ =
        convertSlideToHTML pkg ocr ⟨f, .tree sps (some (pics1 ++ pics2))⟩ := by
  have hpi : processImage ocr buf = some "" := by simp [processImage, hw, hrec]
  have hpic : picHtml pkg ocr f ⟨some rId⟩ = "" := by
    simp [picHtml, htr, hres, hpi, truthy]
  refine ⟨hpic, ?_,
    fun sps pics1 pics2 => slide_pic_contrib pkg ocr f sps pics1 pics2 _ hpic⟩
  intro pkg2 h2
  have hnone : getImageData pkg2 f rId = none := by
    unfold getImageData; rw [h2]
  rw [hpic]
  simp [picHtml, htr, hnone]

/-- Witness for the empty-text claim: `pkgMedia` resolves the picture and
the OCR collaborator recognizes empty text; the result is the same as
under the empty package, which has no relationship entry. -/
theorem empty_text_no_fragment_witness :
    picHtml pkgMedia ocrEmpty "ppt/slides/slide1.xml" ⟨some "rId2"⟩ = "" ∧
    picHtml emptyPkg ocrEmpty "ppt/slides/slide1.xml" ⟨some "rId2"⟩ =
      picHtml pkgMedia ocrEmpty "ppt/slides/slide1.xml" ⟨some "rId2"⟩ :=
  ⟨(empty_text_no_fragment pkgMedia ocrEmpty "ppt/slides/slide1.xml" "rId2" "IMGBYTES"
      (by decide) rfl rfl (by decide)).1,
   (empty_text_no_fragment pkgMedia ocrEmpty "ppt/slides/slide1.xml" "rId2" "IMGBYTES"
      (by decide) rfl rfl (by decide)).2.1 emptyPkg rfl⟩

end PPTX

